import Mathlib

/-!
Verification of the tee-time-agent pipeline (`src/tee-time-agent/src/tee_time_agent/`).

The Python source is shallowly embedded: text is modelled as `List Char`,
JSON values as an inductive `JVal`, Python exceptions as an inductive error
type threaded through `Except`, and the orchestrator / retry loops as pure
functions returning explicit event traces.
-/

set_option autoImplicit false

namespace TeeTime

/-! ## Python-style string primitives over `List Char` -/

/-- ASCII whitespace stripped by Python's `str.strip()` with no arguments
(space, tab, linefeed, carriage return, vertical tab, form feed). -/
def pyIsSpace (c : Char) : Bool :=
  c == ' ' || c == '\t' || c == '\n' || c == '\r' || c == Char.ofNat 11 || c == Char.ofNat 12

/-- Python `str.strip()`: remove whitespace from both ends. -/
def pyStrip (l : List Char) : List Char :=
  List.rdropWhile pyIsSpace (List.dropWhile pyIsSpace l)

theorem mem_dropWhile_of_mem {c : Char} {l : List Char} (hm : c ∈ l)
    (hc : pyIsSpace c = false) : c ∈ List.dropWhile pyIsSpace l := by
  induction l with
  | nil => cases hm
  | cons a as ih =>
    rw [List.dropWhile_cons]
    rcases List.mem_cons.mp hm with h | h
    · subst h; simp [hc]
    · by_cases ha : pyIsSpace a
      · simp [ha, ih h]
      · simp [ha, List.mem_cons, h]

theorem mem_rdropWhile_of_mem {c : Char} {l : List Char} (hm : c ∈ l)
    (hc : pyIsSpace c = false) : c ∈ List.rdropWhile pyIsSpace l := by
  unfold List.rdropWhile
  rw [List.mem_reverse]
  exact mem_dropWhile_of_mem (by simpa using hm) hc

/-- A list containing a non-whitespace character does not strip to empty. -/
theorem pyStrip_ne_nil {c : Char} {l : List Char} (hm : c ∈ l)
    (hc : pyIsSpace c = false) : pyStrip l ≠ [] := by
  have h1 : c ∈ List.dropWhile pyIsSpace l := mem_dropWhile_of_mem hm hc
  have h2 : c ∈ pyStrip l := mem_rdropWhile_of_mem h1 hc
  exact List.ne_nil_of_mem h2

/-- Stripping leaves no leading whitespace. -/
theorem dropWhile_pyStrip (l : List Char) :
    List.dropWhile pyIsSpace (pyStrip l) = pyStrip l := by
  obtain ⟨t, ht⟩ := List.rdropWhile_prefix pyIsSpace (List.dropWhile pyIsSpace l)
  cases hr : pyStrip l with
  | nil => simp
  | cons a rs =>
    have hne : List.dropWhile pyIsSpace l ≠ [] := by
      rw [← ht]
      unfold pyStrip at hr
      rw [hr]
      simp
    have hhead : (List.dropWhile pyIsSpace l).head hne = a := by
      have : (List.dropWhile pyIsSpace l) = a :: (rs ++ t) := by
        rw [← ht]
        unfold pyStrip at hr
        rw [hr, List.cons_append]
      simp [this]
    have hpa : ¬ pyIsSpace a := by
      have h := List.head_dropWhile_not pyIsSpace l hne
      rw [hhead] at h
      simp [h]
    simp [List.dropWhile_cons, hpa]

/-- Python `strip` is idempotent. -/
theorem pyStrip_idempotent (l : List Char) : pyStrip (pyStrip l) = pyStrip l := by
  have h1 : pyStrip (pyStrip l)
      = List.rdropWhile pyIsSpace (List.dropWhile pyIsSpace (pyStrip l)) := rfl
  rw [h1, dropWhile_pyStrip]
  rw [show pyStrip l = List.rdropWhile pyIsSpace (List.dropWhile pyIsSpace l) from rfl,
    List.rdropWhile_idempotent]

/-! ## JSON values and Python dynamic semantics -/

/-- Characters that cannot appear literally in Lean source under this
development's conventions. -/
def lbrace : Char := Char.ofNat 123

def rbrace : Char := Char.ofNat 125

def squote : Char := Char.ofNat 39

def btick : Char := Char.ofNat 96

/-- A value produced by Python's `json.loads` (restricted to the fragment the
agent exercises: floats are not modelled). -/
inductive JVal where
  | null : JVal
  | bool : Bool → JVal
  | num : Int → JVal
  | str : List Char → JVal
  | arr : List JVal → JVal
  | obj : List (List Char × JVal) → JVal

/-- Python dict lookup over the parse-order association list: a later
duplicate key wins, as when `json.loads` builds a `dict`. -/
def objLookup (kvs : List (List Char × JVal)) (k : List Char) : Option JVal :=
  match kvs with
  | [] => none
  | (k', v) :: rest =>
    match objLookup rest k with
    | some w => some w
    | none => if k' = k then some v else none

/-- Python truthiness for JSON-derived values. -/
def pyTruthy : JVal → Bool
  | .null => false
  | .bool b => b
  | .num n => n != 0
  | .str s => !s.isEmpty
  | .arr xs => !xs.isEmpty
  | .obj kvs => !kvs.isEmpty

/-- Python exceptions surfaced by the embedded code. -/
inductive PyErr where
  | attributeError : PyErr
  | typeError : PyErr
  | httpStatusError : Nat → PyErr
  | httpRequestError : List Char → PyErr
  | retryError : PyErr
  | runtimeError : List Char → PyErr
deriving DecidableEq

/-- Python `value.get(key)` on a value that ought to be a dict; any non-dict
raises `AttributeError`. Returns `none` for a missing key (Python `None`). -/
def pyGet : JVal → List Char → Except PyErr (Option JVal)
  | .obj kvs, k => .ok (objLookup kvs k)
  | _, _ => .error .attributeError

/-- Python `value.get(key, default)`. A key bound to JSON `null` yields
`null`, not the default. -/
def pyGetD (v : JVal) (k : List Char) (d : JVal) : Except PyErr JVal := do
  let r ← pyGet v k
  return r.getD d

/-- Python `for item in v`: lists iterate elements, strings iterate
1-character strings, dicts iterate their keys; scalars raise `TypeError`. -/
def pyIter : JVal → Except PyErr (List JVal)
  | .arr xs => .ok xs
  | .str s => .ok (s.map (fun c => .str [c]))
  | .obj kvs => .ok (kvs.map (fun kv => .str kv.1))
  | _ => .error .typeError

mutual

/-- Python `repr` of a JSON-derived value (string escaping not modelled). -/
def pyRepr : JVal → List Char
  | .null => ("None".toList)
  | .bool true => ("True".toList)
  | .bool false => ("False".toList)
  | .num n => ((toString n).toList)
  | .str s => squote :: s ++ [squote]
  | .arr xs => '[' :: pyReprElems xs ++ [']']
  | .obj kvs => lbrace :: pyReprMembers kvs ++ [rbrace]

def pyReprElems : List JVal → List Char
  | [] => []
  | [x] => pyRepr x
  | x :: y :: xs => pyRepr x ++ (", ".toList) ++ pyReprElems (y :: xs)

def pyReprMembers : List (List Char × JVal) → List Char
  | [] => []
  | [(k, v)] => (squote :: k ++ [squote]) ++ (": ".toList) ++ pyRepr v
  | (k, v) :: m :: kvs =>
      (squote :: k ++ [squote]) ++ (": ".toList) ++ pyRepr v ++ (", ".toList)
        ++ pyReprMembers (m :: kvs)

end

/-- Python `str(value)`: strings render as themselves, every other value via
its repr (`True` / `False` / `None`, decimal numbers, list/dict reprs). -/
def pyStr : JVal → List Char
  | .str s => s
  | v => pyRepr v

/-! ## Python `int(...)` coercion -/

def digitsToNatAux : List Char → Nat → Option Nat
  | [], acc => some acc
  | c :: cs, acc =>
      if c.isDigit then digitsToNatAux cs (acc * 10 + (c.toNat - 48)) else none

def digitsToNat (l : List Char) : Option Nat :=
  if l.isEmpty then none else digitsToNatAux l 0

/-- Python `int(s)` on a decimal string: strip whitespace, optional sign,
then a non-empty digit run (underscore digit grouping is not modelled). -/
def pyToInt (s : List Char) : Option Int :=
  match pyStrip s with
  | '+' :: ds => (digitsToNat ds).map (fun n => (n : Int))
  | '-' :: ds => (digitsToNat ds).map (fun n => -(n : Int))
  | ds => (digitsToNat ds).map (fun n => (n : Int))

/-- `OllamaClient._coerce_int`: best-effort integer coercion. The input is
the result of `item.get("available_slots")`; `none` is Python `None` for a
missing key, and JSON `null` is Python `None` as well. -/
def coerceInt : Option JVal → Option Int
  | none => none
  | some .null => none
  | some (.str s) => if s.isEmpty then none else pyToInt s
  | some (.num n) => some n
  | some (.bool b) => some (if b then 1 else 0)
  | some (.arr _) => none
  | some (.obj _) => none

/-! ## A `json.loads` model -/

def jsonWs (c : Char) : Bool := c == ' ' || c == '\t' || c == '\n' || c == '\r'

def skipWs (s : List Char) : List Char := s.dropWhile jsonWs

/-- Decode one JSON string body (after the opening quote); `\uXXXX` escapes
are rejected rather than modelled. -/
def parseJStr : Nat → List Char → Option (List Char × List Char)
  | 0, _ => none
  | _ + 1, [] => none
  | fuel + 1, c :: cs =>
    if c = '"' then some ([], cs)
    else if c = '\\' then
      match cs with
      | [] => none
      | e :: cs' =>
        let m : Option Char :=
          if e = '"' then some '"'
          else if e = '\\' then some '\\'
          else if e = '/' then some '/'
          else if e = 'b' then some (Char.ofNat 8)
          else if e = 'f' then some (Char.ofNat 12)
          else if e = 'n' then some '\n'
          else if e = 'r' then some '\r'
          else if e = 't' then some '\t'
          else none
        match m with
        | none => none
        | some ch => (parseJStr fuel cs').map (fun p => (ch :: p.1, p.2))
    else (parseJStr fuel cs).map (fun p => (c :: p.1, p.2))

def isFloatCont : List Char → Bool
  | c :: _ => c == '.' || c == 'e' || c == 'E'
  | [] => false

/-- Decode a JSON integer (floats are rejected: a fraction or exponent makes
the whole decode fail in this model). -/
def parseJNum (s : List Char) : Option (JVal × List Char) :=
  match s with
  | '-' :: rest =>
    let ds := rest.takeWhile Char.isDigit
    let rem := rest.dropWhile Char.isDigit
    if ds.isEmpty then none
    else if isFloatCont rem then none
    else (digitsToNat ds).map (fun n => (.num (-(n : Int)), rem))
  | _ =>
    let ds := s.takeWhile Char.isDigit
    let rem := s.dropWhile Char.isDigit
    if ds.isEmpty then none
    else if isFloatCont rem then none
    else (digitsToNat ds).map (fun n => (.num ((n : Int)), rem))

mutual

def parseJVal : Nat → List Char → Option (JVal × List Char)
  | 0, _ => none
  | fuel + 1, s0 =>
    let s := skipWs s0
    match s with
    | [] => none
    | c :: cs =>
      if c = 'n' then
        match s with
        | 'n' :: 'u' :: 'l' :: 'l' :: rest => some (.null, rest)
        | _ => none
      else if c = 't' then
        match s with
        | 't' :: 'r' :: 'u' :: 'e' :: rest => some (.bool true, rest)
        | _ => none
      else if c = 'f' then
        match s with
        | 'f' :: 'a' :: 'l' :: 's' :: 'e' :: rest => some (.bool false, rest)
        | _ => none
      else if c = '"' then (parseJStr fuel cs).map (fun p => (.str p.1, p.2))
      else if c = '[' then
        match skipWs cs with
        | ']' :: rest => some (.arr [], rest)
        | cs' => (parseArrElems fuel cs').map (fun p => (.arr p.1, p.2))
      else if c = lbrace then
        match skipWs cs with
        | [] => none
        | r :: rest =>
          if r = rbrace then some (.obj [], rest)
          else (parseObjMembers fuel (r :: rest)).map (fun p => (.obj p.1, p.2))
      else if c = '-' || c.isDigit then parseJNum s
      else none

def parseArrElems : Nat → List Char → Option (List JVal × List Char)
  | 0, _ => none
  | fuel + 1, s =>
    match parseJVal fuel s with
    | none => none
    | some (v, rest) =>
      match skipWs rest with
      | ',' :: rest' => (parseArrElems fuel rest').map (fun p => (v :: p.1, p.2))
      | ']' :: rest' => some ([v], rest')
      | _ => none

def parseObjMembers : Nat → List Char → Option (List (List Char × JVal) × List Char)
  | 0, _ => none
  | fuel + 1, s =>
    match skipWs s with
    | '"' :: cs =>
      match parseJStr fuel cs with
      | none => none
      | some (k, rest) =>
        match skipWs rest with
        | ':' :: rest' =>
          match parseJVal fuel rest' with
          | none => none
          | some (v, rest2) =>
            match skipWs rest2 with
            | ',' :: rest3 =>
                (parseObjMembers fuel rest3).map (fun p => ((k, v) :: p.1, p.2))
            | r :: rest3 => if r = rbrace then some ([(k, v)], rest3) else none
            | [] => none
        | _ => none
    | _ => none

end

/-- Python `json.loads` on the JSON fragment above. Leading and trailing
whitespace is tolerated; trailing non-whitespace input is a decode error. -/
def jsonLoads (s : List Char) : Option JVal :=
  match parseJVal (2 * s.length + 2) s with
  | some (v, rest) => if (skipWs rest).isEmpty then some v else none
  | none => none

/-! ## Data model (`models.py`, `playwright_client.TeeSheetSnapshot`) -/

/-- `playwright_client.TeeSheetSnapshot`. -/
structure TeeSheetSnapshot where
  url : List Char
  dateIso : List Char
  dayName : List Char
  htmlFragment : List Char
  textFragment : List Char

/-- `models.TeeTimeSlot`. `notes` keeps the raw JSON value, as Python's
untyped dataclass does. -/
structure TeeTimeSlot where
  time : List Char
  status : List Char
  availableSlots : Option Int
  isBookable : Bool
  notes : Option JVal

/-- `models.TeeSheetAnalysis`. -/
structure TeeSheetAnalysis where
  dateIso : List Char
  dayName : List Char
  summary : List Char
  teeTimes : List TeeTimeSlot
  warnings : List (List Char)
  sourceUrl : List Char
  modelUsed : List Char
  modelRawResponse : List Char

/-- Configuration consumed by the analyser; only the field the claims touch
is modelled. -/
structure Settings where
  ollamaModel : List Char

/-! ## `OllamaClient._parse_response` -/

/-- The three-backtick fenced-code delimiter. -/
def fenceDelim : List Char := [btick, btick, btick]

/-- Does the list start with the fence? -/
def fenceAt : List Char → Bool
  | a :: b :: c :: _ => a == btick && b == btick && c == btick
  | _ => false

/-- Python `"```" in candidate`. -/
def containsFence : List Char → Bool
  | [] => false
  | c :: cs => fenceAt (c :: cs) || containsFence cs

/-- Python `candidate.split("```")`, accumulator form. -/
def splitFenceAux : List Char → List Char → List (List Char)
  | [], acc => [acc.reverse]
  | c :: cs, acc =>
    if fenceAt (c :: cs) then acc.reverse :: splitFenceAux (cs.drop 2) []
    else splitFenceAux cs (c :: acc)
termination_by s _ => s.length
decreasing_by
  all_goals simp
  omega

/-- Python `candidate.split("```")`. -/
def splitFence (s : List Char) : List (List Char) := splitFenceAux s []

/-- Strip a leading case-insensitive `json` language tag and re-strip
(`candidate.lower().startswith("json")` then `candidate[4:].strip()`). -/
def jsonTagStrip (candidate : List Char) : List Char :=
  if (candidate.take 4).map Char.toLower = ("json".toList) then pyStrip (candidate.drop 4)
  else candidate

/-- The candidate construction inside `_parse_response`: strip, extract the
fenced segment if any (`parts[1]` when the split has at least 3 parts, else
`parts[-1]`), re-strip, strip a leading `json` tag. -/
def extract_candidate (raw_text : List Char) : List Char :=
  let candidate := pyStrip raw_text
  let candidate1 :=
    if containsFence candidate then
      let parts := splitFence candidate
      if 3 ≤ parts.length then parts.getD 1 [] else parts.getLastD []
    else candidate
  jsonTagStrip (pyStrip candidate1)

/-- `json.loads` with the `except json.JSONDecodeError: return {}` handler. -/
def loadsOrEmpty (candidate : List Char) : JVal :=
  match jsonLoads candidate with
  | some v => v
  | none => .obj []

/-- `OllamaClient._parse_response`: extract JSON from the model response.
Total: an empty stripped response or a decode failure yields the empty dict. -/
def parse_response (raw_text : List Char) : JVal :=
  if (pyStrip raw_text).isEmpty then .obj []
  else loadsOrEmpty (extract_candidate raw_text)

/-! ## Slot and warning construction (`OllamaClient.analyse_snapshot`) -/

def pyTruthyOpt (v : Option JVal) : Bool := pyTruthy (v.getD .null)

/-- One element of the `tee_times` comprehension: evaluate the filter
`if item.get("time")` and, when truthy, build the slot. A `.get` on a
non-dict item raises `AttributeError`, aborting the whole analysis. -/
def build_slot (item : JVal) : Except PyErr (Option TeeTimeSlot) := do
  let timeOpt ← pyGet item ("time".toList)
  if pyTruthyOpt timeOpt then
    let t ← pyGetD item ("time".toList) (.str [])
    let st ← pyGetD item ("status".toList) (.str [])
    let avail ← pyGet item ("available_slots".toList)
    let bookable ← pyGetD item ("is_bookable".toList) (.bool false)
    let notesOpt ← pyGet item ("notes".toList)
    return some {
      time := pyStrip (pyStr t)
      status := pyStrip (pyStr st)
      availableSlots := coerceInt avail
      isBookable := pyTruthy bookable
      notes := if pyTruthyOpt notesOpt then notesOpt else none }
  else
    return none

/-- Sequential evaluation of the comprehension elements: the first raised
exception aborts the whole comprehension, as in Python. -/
def build_slot_list : List JVal → Except PyErr (List (Option TeeTimeSlot))
  | [] => .ok []
  | i :: rest => do
    let o ← build_slot i
    let os ← build_slot_list rest
    return o :: os

/-- The full `tee_times` comprehension over the parsed items. -/
def build_slots (items : List JVal) : Except PyErr (List TeeTimeSlot) := do
  let opts ← build_slot_list items
  return opts.reduceOption

/-- One element of the `warnings` comprehension: `str(message).strip()`,
kept only when non-empty. -/
def build_warning (m : JVal) : Option (List Char) :=
  let s := pyStrip (pyStr m)
  if s.isEmpty then none else some s

/-- The full `warnings` comprehension. -/
def build_warnings (msgs : List JVal) : List (List Char) :=
  msgs.filterMap build_warning

/-- `OllamaClient._fallback_summary`. -/
def fallback_summary (tee_times : List TeeTimeSlot) (warnings : List (List Char))
    (snapshot : TeeSheetSnapshot) : List Char :=
  if tee_times.isEmpty then
    match warnings with
    | w :: _ =>
        ("No tee times parsed for ".toList) ++ snapshot.dayName ++ [' '] ++ snapshot.dateIso
          ++ ("; warnings: ".toList) ++ w
    | [] =>
        ("No tee times parsed for ".toList) ++ snapshot.dayName ++ [' '] ++ snapshot.dateIso
          ++ (".".toList)
  else
    let bookable := tee_times.filter (fun slot => slot.isBookable)
    if !bookable.isEmpty then
      ((toString bookable.length).toList) ++ (" bookable tee time(s) found for ".toList)
        ++ snapshot.dayName ++ [' '] ++ snapshot.dateIso ++ (".".toList)
    else
      ("Tee sheet analysed for ".toList) ++ snapshot.dayName ++ [' '] ++ snapshot.dateIso
        ++ ("; no bookable slots identified.".toList)

/-- The body of `analyse_snapshot` after `_parse_response`, with the parsed
value explicit: build slots and warnings, apply the summary fallback. -/
def analyse_parsed (settings : Settings) (parsed : JVal) (raw_text : List Char)
    (snapshot : TeeSheetSnapshot) : Except PyErr TeeSheetAnalysis := do
  let teeRaw ← pyGetD parsed ("tee_times".toList) (.arr [])
  let items ← pyIter teeRaw
  let tee_times ← build_slots items
  let warnRaw ← pyGetD parsed ("warnings".toList) (.arr [])
  let wItems ← pyIter warnRaw
  let warnings := build_warnings wItems
  let summaryOpt ← pyGet parsed ("summary".toList)
  let summary : List Char :=
    match summaryOpt with
    | some (.str s) =>
        if (pyStrip s).isEmpty then fallback_summary tee_times warnings snapshot else s
    | _ => fallback_summary tee_times warnings snapshot
  return {
    dateIso := snapshot.dateIso
    dayName := snapshot.dayName
    summary := pyStrip summary
    teeTimes := tee_times
    warnings := warnings
    sourceUrl := snapshot.url
    modelUsed := ("ollama:".toList) ++ settings.ollamaModel
    modelRawResponse := raw_text }

/-- The body of `analyse_snapshot` from the stripped response text onward. -/
def analyse_from_text (settings : Settings) (raw_text : List Char)
    (snapshot : TeeSheetSnapshot) : Except PyErr TeeSheetAnalysis :=
  analyse_parsed settings (parse_response raw_text) raw_text snapshot

/-! ## The bounded-retry remote call (`OllamaClient._invoke_generate`) -/

/-- Result of the retry loop: final outcome, number of attempts made, and
the sleeps performed between attempts (in time-units). -/
structure RetryTrace where
  outcome : Except PyErr JVal
  attempts : Nat
  waits : List Nat

/-- tenacity `wait_exponential(multiplier=1, min=1, max=8)` evaluated after
the n-th failed attempt: `multiplier * exp_base ** (attempt_number - 1)`,
clamped below by `min` and above by `max`. -/
def wait_exponential (attempt_number : Nat) : Nat :=
  max (max 0 1) (min (2 ^ (attempt_number - 1)) 8)

/-- `OllamaClient._invoke_generate` under
`AsyncRetrying(wait=wait_exponential(multiplier=1, min=1, max=8), stop=stop_after_attempt(3), reraise=True)`.
The oracle returns the outcome of the HTTP generate call on each attempt
(1-indexed). After `stop_after_attempt(3)` is reached, `reraise=True` makes
tenacity re-raise the last underlying exception, not a `RetryError`. -/
def invoke_generate (oracle : Nat → Except PyErr JVal) : RetryTrace :=
  match oracle 1 with
  | .ok v => ⟨.ok v, 1, []⟩
  | .error _ =>
    match oracle 2 with
    | .ok v => ⟨.ok v, 2, [wait_exponential 1]⟩
    | .error _ =>
      match oracle 3 with
      | .ok v => ⟨.ok v, 3, [wait_exponential 1, wait_exponential 2]⟩
      | .error e => ⟨.error e, 3, [wait_exponential 1, wait_exponential 2]⟩

/-- `OllamaClient.analyse_snapshot`. The `except RetryError` handler wraps a
`tenacity.RetryError` as `RuntimeError("Failed communicating with Ollama after retries")`;
any other exception from the retry loop propagates unchanged. -/
def analyse_snapshot (settings : Settings) (oracle : Nat → Except PyErr JVal)
    (snapshot : TeeSheetSnapshot) : Except PyErr TeeSheetAnalysis := do
  let responseJson ←
    match (invoke_generate oracle).outcome with
    | .error .retryError =>
        Except.error (.runtimeError ("Failed communicating with Ollama after retries".toList))
    | .error e => Except.error e
    | .ok v => Except.ok v
  let respOpt ← pyGet responseJson ("response".toList)
  let raw_text := pyStrip (pyStr (respOpt.getD (.str [])))
  analyse_from_text settings raw_text snapshot

/-! ## Date selection (`date_window.py`, `main.resolve_targets`)

Dates are proleptic-Gregorian ordinals as in Python's `date.toordinal()`:
ordinal 1 is 0001-01-01, a Monday. -/

/-- `date.weekday()`: Monday = 0 ... Sunday = 6. -/
def weekday (ordinal : Nat) : Nat := (ordinal + 6) % 7

/-- `date_window.WEEKEND_INDICES = {4, 5, 6}` (Friday, Saturday, Sunday). -/
def WEEKEND_INDICES : List Nat := [4, 5, 6]

/-- `date_window.WEEKDAY_NAMES`. -/
def WEEKDAY_NAMES (n : Nat) : List Char :=
  match n with
  | 0 => ("Monday".toList)
  | 1 => ("Tuesday".toList)
  | 2 => ("Wednesday".toList)
  | 3 => ("Thursday".toList)
  | 4 => ("Friday".toList)
  | 5 => ("Saturday".toList)
  | _ => ("Sunday".toList)

/-- `date_window.TargetDate`: an immutable calendar date. -/
structure TargetDate where
  value : Nat
deriving DecidableEq

/-- `TargetDate.day_name`. -/
def TargetDate.day_name (t : TargetDate) : List Char := WEEKDAY_NAMES (weekday t.value)

/-- `TargetDate.is_weekend`. -/
def TargetDate.is_weekend (t : TargetDate) : Bool :=
  WEEKEND_INDICES.contains (weekday t.value)

/-- `date_window.compute_target_dates` with `today` supplied explicitly (the
source defaults it to `date.today()`, an environment input). -/
def compute_target_dates (today : Nat) (lookahead_days : Nat := 10) : List TargetDate :=
  let target_value := today + lookahead_days
  let target : TargetDate := ⟨target_value⟩
  if target.is_weekend then [target] else []

/-! Calendar arithmetic backing `date.fromisoformat`. -/

def isLeapYear (y : Nat) : Bool := (y % 4 == 0 && y % 100 != 0) || y % 400 == 0

def daysInMonth (y m : Nat) : Nat :=
  if m = 2 then (if isLeapYear y then 29 else 28)
  else if m = 4 ∨ m = 6 ∨ m = 9 ∨ m = 11 then 30
  else 31

def daysBeforeYear (y : Nat) : Nat :=
  365 * (y - 1) + (y - 1) / 4 - (y - 1) / 100 + (y - 1) / 400

def daysBeforeMonth (y m : Nat) : Nat :=
  ((List.range (m - 1)).map (fun i => daysInMonth y (i + 1))).sum

/-- `date(y, m, d).toordinal()`. -/
def toOrdinal (y m d : Nat) : Nat := daysBeforeYear y + daysBeforeMonth y m + d

def digitVal (c : Char) : Nat := c.toNat - 48

/-- `datetime.date.fromisoformat` restricted to the canonical `YYYY-MM-DD`
layout (4-2-2 digits, two hyphens), with full calendar validation; any other
input raises `ValueError`, modelled as `none`. -/
def fromisoformat (s : List Char) : Option Nat :=
  match s with
  | [y1, y2, y3, y4, h1, m1, m2, h2, d1, d2] =>
    if h1 = '-' ∧ h2 = '-' ∧ ([y1, y2, y3, y4, m1, m2, d1, d2].all Char.isDigit) then
      let y := digitVal y1 * 1000 + digitVal y2 * 100 + digitVal y3 * 10 + digitVal y4
      let m := digitVal m1 * 10 + digitVal m2
      let d := digitVal d1 * 10 + digitVal d2
      if 1 ≤ y ∧ 1 ≤ m ∧ m ≤ 12 ∧ 1 ≤ d ∧ d ≤ daysInMonth y m then some (toOrdinal y m d)
      else none
    else none
  | _ => none

/-- `SystemExit(f"Invalid --force-date: ...")` from `main.resolve_targets`. -/
inductive ConfigErr where
  | invalidForceDate (supplied : List Char) : ConfigErr
deriving DecidableEq

/-- `main.resolve_targets`, with `today` for the `date.today()` read inside
`compute_target_dates`. Note `if force_date:` is a truthiness test: `None`
and the empty string both fall through to the automatic window. -/
def resolve_targets (force_date : Option (List Char)) (today : Nat) :
    Except ConfigErr (List TargetDate) :=
  match force_date with
  | some s =>
    if s.isEmpty then .ok (compute_target_dates today)
    else
      match fromisoformat s with
      | some v => .ok [⟨v⟩]
      | none => .error (.invalidForceDate s)
  | none => .ok (compute_target_dates today)

/-! ## Session lifetime (`playwright_client.TeeSheetBrowser`) -/

/-- Observable resource events of the Playwright session. -/
inductive SessionEvent where
  | startPlaywright
  | launchBrowser
  | newContext
  | newPage
  | loginAttempt
  | closeContext
  | closeBrowser
  | stopPlaywright
deriving DecidableEq

/-- `TeeSheetBrowser.__aenter__`: start playwright, launch the browser, open
a context and page, then `_login()`. When login fails, the exception leaves
`__aenter__` with all resources already acquired; the second component
records whether `__aenter__` completed. -/
def aenter (loginOk : Bool) : List SessionEvent × Bool :=
  ([.startPlaywright, .launchBrowser, .newContext, .newPage, .loginAttempt], loginOk)

/-- `TeeSheetBrowser.__aexit__`: close the page's context, then the browser,
then stop playwright (every handle is set once `__aenter__` completed; the
close calls themselves are assumed not to raise). -/
def aexit : List SessionEvent := [.closeContext, .closeBrowser, .stopPlaywright]

/-- `async with TeeSheetBrowser(...)` as Python executes it: when
`__aenter__` raises (login failure) the body never runs and `__aexit__` is
not invoked; when `__aenter__` completes, `__aexit__` runs whether or not
the body raised (`bodyRaises` does not affect the release events). -/
def sessionTrace (loginOk bodyRaises : Bool) : List SessionEvent :=
  let (acquired, entered) := aenter loginOk
  if entered then
    let _ := bodyRaises
    acquired ++ aexit
  else acquired

/-! ## Delivery (`telegram.post_to_telegram`) -/

structure HttpResponse where
  statusCode : Nat
  body : List Char

/-- The JSON payload posted to the channel endpoint. -/
structure TelegramPayload where
  chatId : List Char
  text : List Char
  disableWebPagePreview : Bool
deriving DecidableEq

/-- `RuntimeError(f"Telegram send failed with {status_code}: {text}")`. -/
inductive DeliveryErr where
  | sendFailed (status : Nat) (body : List Char) : DeliveryErr
deriving DecidableEq

/-- `telegram.post_to_telegram`: build the payload, perform the single
`client.post`, succeed iff `response.is_success` (HTTP 2xx, i.e.
`200 <= status < 300`), otherwise raise carrying the status code and body.
The channel is an oracle from posted payloads to responses; the second
component is the trace of outbound calls actually made. -/
def post_to_telegram (chatId text : List Char)
    (channel : TelegramPayload → HttpResponse) :
    Except DeliveryErr Unit × List TelegramPayload :=
  let payload : TelegramPayload := ⟨chatId, text, true⟩
  let response := channel payload
  if 200 ≤ response.statusCode ∧ response.statusCode < 300 then (.ok (), [payload])
  else (.error (.sendFailed response.statusCode response.body), [payload])

/-! ## Orchestrator (`adk_agent.TeeTimeAgent._run_async_impl`) -/

/-- Entries of the `failures` list. Only analysis and delivery failures are
appended to it in the source; fetch failures are not. -/
inductive RunFailure where
  | ollama (iso : List Char) (exc : List Char) : RunFailure
  | telegram (iso : List Char) (exc : List Char) : RunFailure
deriving DecidableEq

/-- The text events yielded by `_run_async_impl`, in structured form. -/
inductive AgentEvent where
  | noTargets
  | fetched (iso : List Char)
  | fetchFailed (iso : List Char) (exc : List Char)
  | browserError (exc : List Char)
  | noSnapshots
  | analysed (iso : List Char) (summary : List Char)
  | analysisFailed (iso : List Char) (exc : List Char)
  | telegramSent (iso : List Char)
  | telegramFailed (iso : List Char) (exc : List Char)
  | finalSummary (succeeded : Nat) (failed : Nat) (delivered : List (List Char))
      (failures : List RunFailure)
deriving DecidableEq

/-- `adk_agent.SnapshotRecord`. -/
structure SnapshotRecord (σ : Type) where
  targetIso : List Char
  snapshot : σ

/-- The collaborators of the orchestrator, as oracles. Exceptions are their
message strings. One fetch oracle for the whole run models the single
browser session shared by every target. -/
structure AgentEnv (σ : Type) where
  sessionStart : Except (List Char) Unit
  fetch : List Char → Except (List Char) σ
  analyse : σ → Except (List Char) TeeSheetAnalysis
  format : TeeSheetAnalysis → List Char
  deliver : List Char → Except (List Char) Unit

/-- Lexicographic order on code points, as Python compares strings. -/
def strLt : List Char → List Char → Bool
  | [], [] => false
  | [], _ :: _ => true
  | _ :: _, [] => false
  | a :: as, b :: bs => if a < b then true else if b < a then false else strLt as bs

def insertSorted (x : List Char) : List (List Char) → List (List Char)
  | [] => [x]
  | y :: ys => if strLt y x then y :: insertSorted x ys else x :: y :: ys

/-- Python `sorted` on strings. -/
def sortStrs : List (List Char) → List (List Char)
  | [] => []
  | x :: xs => insertSorted x (sortStrs xs)

/-- The per-target fetch loop (inside the browser session): each failure is
caught, reported as an event, and the loop continues. -/
def fetchPhase {σ : Type} (env : AgentEnv σ) :
    List (List Char) → List AgentEvent × List (SnapshotRecord σ)
  | [] => ([], [])
  | iso :: rest =>
    let tail := fetchPhase env rest
    match env.fetch iso with
    | .ok s => (.fetched iso :: tail.1, ⟨iso, s⟩ :: tail.2)
    | .error e => (.fetchFailed iso e :: tail.1, tail.2)

/-- The analysis/delivery loop over successfully captured snapshots:
analysis failure records an `ollama` failure and skips delivery; delivery
failure records a `telegram` failure; success records the delivered iso. -/
def processPhase {σ : Type} (env : AgentEnv σ) :
    List (SnapshotRecord σ) → List AgentEvent × List (List Char) × List RunFailure
  | [] => ([], [], [])
  | r :: rest =>
    let tail := processPhase env rest
    match env.analyse r.snapshot with
    | .error e =>
        (.analysisFailed r.targetIso e :: tail.1, tail.2.1, .ollama r.targetIso e :: tail.2.2)
    | .ok analysis =>
      match env.deliver (env.format analysis) with
      | .ok _ =>
          (.analysed r.targetIso analysis.summary :: .telegramSent r.targetIso :: tail.1,
            r.targetIso :: tail.2.1, tail.2.2)
      | .error e =>
          (.analysed r.targetIso analysis.summary :: .telegramFailed r.targetIso e :: tail.1,
            tail.2.1, .telegram r.targetIso e :: tail.2.2)

/-- `TeeTimeAgent._run_async_impl`: the full event trace of one run. -/
def run_async_impl {σ : Type} (env : AgentEnv σ) (targets : List (List Char)) :
    List AgentEvent :=
  if targets.isEmpty then [.noTargets]
  else
    match env.sessionStart with
    | .error e => [.browserError e]
    | .ok _ =>
      let fp := fetchPhase env targets
      if fp.2.isEmpty then fp.1 ++ [.noSnapshots]
      else
        let pp := processPhase env fp.2
        fp.1 ++ pp.1
          ++ [.finalSummary pp.2.1.length pp.2.2.length (sortStrs pp.2.1) pp.2.2]

/-! ## Claim theorems -/

theorem is_weekend_iff (t : TargetDate) :
    t.is_weekend = true ↔ weekday t.value ∈ WEEKEND_INDICES :=
  List.elem_iff

/-- C5: the Selector computes `today + lookahead` once and returns a
sequence containing exactly that one TargetDate iff its weekday is
Friday (4), Saturday (5) or Sunday (6), and the empty sequence otherwise. -/
theorem claim_C5_selector (today lookahead_days : Nat) :
    (weekday (today + lookahead_days) ∈ WEEKEND_INDICES →
      compute_target_dates today lookahead_days = [⟨today + lookahead_days⟩])
    ∧ (weekday (today + lookahead_days) ∉ WEEKEND_INDICES →
      compute_target_dates today lookahead_days = []) := by
  constructor <;> intro h <;> simp only [compute_target_dates]
  · rw [if_pos ((is_weekend_iff ⟨today + lookahead_days⟩).mpr h)]
  · rw [if_neg (fun hw => h ((is_weekend_iff ⟨today + lookahead_days⟩).mp hw))]

/-- C5 witness: from 2025-10-14 the 10-day window lands on Friday
2025-10-24, giving one target; from 2025-10-13 it lands on Thursday
2025-10-23, giving none. -/
theorem claim_C5_selector_witness :
    compute_target_dates (toOrdinal 2025 10 14) 10 = [⟨toOrdinal 2025 10 14 + 10⟩]
    ∧ compute_target_dates (toOrdinal 2025 10 13) 10 = [] :=
  ⟨(claim_C5_selector (toOrdinal 2025 10 14) 10).1 (by decide),
   (claim_C5_selector (toOrdinal 2025 10 13) 10).2 (by decide)⟩

/-- C7 counterexample: the empty string is an unparseable forced-date string
supplied by the caller, yet resolution does not fail: `if force_date:` is
falsy for `""`, so the override is silently ignored and the automatic window
runs — here (2025-10-13 + 10 is a Thursday) returning the empty sequence the
claim rules out. -/
theorem claim_C7_counterexample :
    fromisoformat [] = none
    ∧ resolve_targets (some []) (toOrdinal 2025 10 13) = .ok [] := by
  exact ⟨rfl, rfl⟩

/-- C7 (amended): for every NON-EMPTY forced-date string: if it parses as an
ISO calendar date, resolution returns exactly that one TargetDate,
bypassing the weekday filter entirely; if it does not parse, resolution
fails with the fatal configuration error. An empty supplied string is
treated as no override and falls through to the automatic window. -/
theorem claim_C7_force_date (s : List Char) (today : Nat) (hs : s ≠ []) :
    (∀ d, fromisoformat s = some d →
      resolve_targets (some s) today = .ok [⟨d⟩])
    ∧ (fromisoformat s = none →
      resolve_targets (some s) today = .error (.invalidForceDate s)) := by
  have hs' : s.isEmpty = false := by
    cases s with
    | nil => exact absurd rfl hs
    | cons a l => rfl
  constructor
  · intro d hd
    simp [resolve_targets, hs', hd]
  · intro hd
    simp [resolve_targets, hs', hd]

/-- C7 witness: "2025-10-14" is a Tuesday (weekday 1, outside the weekend
filter) yet resolves to exactly one target; "2025-99-99" is unparseable and
resolves to the fatal configuration error. -/
theorem claim_C7_force_date_witness :
    weekday (toOrdinal 2025 10 14) = 1
    ∧ resolve_targets (some ("2025-10-14".toList)) (toOrdinal 2025 10 1)
        = .ok [⟨toOrdinal 2025 10 14⟩]
    ∧ resolve_targets (some ("2025-99-99".toList)) (toOrdinal 2025 10 1)
        = .error (.invalidForceDate ("2025-99-99".toList)) := by
  refine ⟨by decide, ?_, ?_⟩
  · exact (claim_C7_force_date ("2025-10-14".toList) (toOrdinal 2025 10 1)
      (by decide)).1 (toOrdinal 2025 10 14) (by decide)
  · exact (claim_C7_force_date ("2025-99-99".toList) (toOrdinal 2025 10 1)
      (by decide)).2 (by decide)

/-- C8: delivery performs exactly one outbound call carrying
`(chat_id, text, disable_web_page_preview=True)` — no retry at this layer;
the call succeeds iff the response status is 2xx; any non-success response
raises a DeliveryError carrying the response status and body. -/
theorem claim_C8_delivery (chatId text : List Char)
    (channel : TelegramPayload → HttpResponse) :
    (post_to_telegram chatId text channel).2 = [⟨chatId, text, true⟩]
    ∧ ((post_to_telegram chatId text channel).1 = .ok () ↔
        200 ≤ (channel ⟨chatId, text, true⟩).statusCode
          ∧ (channel ⟨chatId, text, true⟩).statusCode < 300)
    ∧ (¬(200 ≤ (channel ⟨chatId, text, true⟩).statusCode
          ∧ (channel ⟨chatId, text, true⟩).statusCode < 300) →
        (post_to_telegram chatId text channel).1
          = .error (.sendFailed (channel ⟨chatId, text, true⟩).statusCode
              (channel ⟨chatId, text, true⟩).body)) := by
  by_cases hc : 200 ≤ (channel ⟨chatId, text, true⟩).statusCode
      ∧ (channel ⟨chatId, text, true⟩).statusCode < 300 <;>
    simp [post_to_telegram, hc]

/-- C8 witness: a channel answering 503 with body "oops" yields a
DeliveryError carrying 503 and "oops", after exactly one call. -/
theorem claim_C8_delivery_witness :
    (post_to_telegram ("cid".toList) ("msg".toList)
        (fun _ => ⟨503, ("oops".toList)⟩)).2
      = [⟨("cid".toList), ("msg".toList), true⟩]
    ∧ (post_to_telegram ("cid".toList) ("msg".toList)
        (fun _ => ⟨503, ("oops".toList)⟩)).1
      = .error (.sendFailed 503 ("oops".toList)) :=
  ⟨(claim_C8_delivery ("cid".toList) ("msg".toList)
      (fun _ => ⟨503, ("oops".toList)⟩)).1,
   (claim_C8_delivery ("cid".toList) ("msg".toList)
      (fun _ => ⟨503, ("oops".toList)⟩)).2.2 (by decide)⟩

/-- C6 counterexample: on the authentication-failure exit, the playwright
process, browser, context and page were acquired inside `__aenter__`, but
because `__aenter__` raised, `__aexit__` never runs: no resource is
released, contradicting "released exactly once" for that exit. -/
theorem claim_C6_counterexample :
    (sessionTrace false false).count SessionEvent.launchBrowser = 1
    ∧ (sessionTrace false false).count SessionEvent.startPlaywright = 1
    ∧ (sessionTrace false false).count SessionEvent.closeContext = 0
    ∧ (sessionTrace false false).count SessionEvent.closeBrowser = 0
    ∧ (sessionTrace false false).count SessionEvent.stopPlaywright = 0 := by
  decide

/-- C6 (amended): for every exit of the session scope whose `__aenter__`
completed — normal completion of the body or an exception from it — all
resources are released exactly once, in reverse order of acquisition
(the page's context before the browser, the browser before the playwright
process); but when `__aenter__` itself raises (authentication failure),
`__aexit__` is never invoked and nothing is released. -/
theorem claim_C6_scoped_release (bodyRaises : Bool) :
    sessionTrace true bodyRaises
      = [.startPlaywright, .launchBrowser, .newContext, .newPage, .loginAttempt,
         .closeContext, .closeBrowser, .stopPlaywright]
    ∧ (sessionTrace true bodyRaises).count SessionEvent.closeContext = 1
    ∧ (sessionTrace true bodyRaises).count SessionEvent.closeBrowser = 1
    ∧ (sessionTrace true bodyRaises).count SessionEvent.stopPlaywright = 1
    ∧ (sessionTrace false bodyRaises).count SessionEvent.closeContext = 0
    ∧ (sessionTrace false bodyRaises).count SessionEvent.closeBrowser = 0
    ∧ (sessionTrace false bodyRaises).count SessionEvent.stopPlaywright = 0 := by
  cases bodyRaises <;> decide

/-- A generate endpoint failing with HTTP 500 on every attempt. -/
def failingOracle : Nat → Except PyErr JVal := fun _ => .error (.httpStatusError 500)

/-- A concrete snapshot used by the closed example theorems. -/
def sampleSnapshot : TeeSheetSnapshot :=
  ⟨("https://example.invalid/teesheet".toList), ("2025-10-24".toList),
    ("Friday".toList), [], []⟩

def sampleSettings : Settings := ⟨("gemma3".toList)⟩

/-- Environment for the retry-exhaustion run: the single target fetches
fine, its analysis raises (as the exhausted retry does), delivery would
succeed if it were ever attempted. -/
def retryFailEnv : AgentEnv Nat := {
  sessionStart := .ok ()
  fetch := fun _ => .ok 0
  analyse := fun _ => .error ("HTTPStatusError 500".toList)
  format := fun _ => []
  deliver := fun _ => .ok () }

/-- C2: at most 3 attempts are ever made; with the generate endpoint failing
on all attempts, exactly 3 attempts are made with backoff waits of 1 then 2
time-units (exponential from 1, capped at 8); the error escaping
`analyse_snapshot` is the underlying HTTP error re-raised by
`reraise=True` — not the RuntimeError("Failed communicating with Ollama
after retries") wrapper, whose `except RetryError` branch never fires — and
the orchestrator then records an analysis failure for the target and makes
no delivery attempt for it. -/
theorem claim_C2_retry_exhaustion :
    (∀ oracle, (invoke_generate oracle).attempts ≤ 3)
    ∧ (invoke_generate failingOracle).attempts = 3
    ∧ (invoke_generate failingOracle).waits = [wait_exponential 1, wait_exponential 2]
    ∧ (invoke_generate failingOracle).waits = [1, 2]
    ∧ (∀ w ∈ (invoke_generate failingOracle).waits, 1 ≤ w ∧ w ≤ 8)
    ∧ analyse_snapshot sampleSettings failingOracle sampleSnapshot
        = .error (.httpStatusError 500)
    ∧ analyse_snapshot sampleSettings failingOracle sampleSnapshot
        ≠ .error (.runtimeError ("Failed communicating with Ollama after retries".toList))
    ∧ run_async_impl retryFailEnv [("2025-10-24".toList)]
        = [.fetched ("2025-10-24".toList),
           .analysisFailed ("2025-10-24".toList) ("HTTPStatusError 500".toList),
           .finalSummary 0 1 []
             [.ollama ("2025-10-24".toList) ("HTTPStatusError 500".toList)]] := by
  refine ⟨?_, rfl, rfl, by decide, by decide, rfl, ?_, by decide⟩
  · intro oracle
    unfold invoke_generate
    cases oracle 1 <;> try simp
    cases oracle 2 <;> try simp
    cases oracle 3 <;> simp
  · intro hcon
    have : analyse_snapshot sampleSettings failingOracle sampleSnapshot
        = .error (.httpStatusError 500) := rfl
    rw [this] at hcon
    simp at hcon

/-! Orchestrator lemmas for C1. -/

theorem fetchPhase_fetched_mem {σ : Type} (env : AgentEnv σ)
    (targets : List (List Char)) (iso : List Char) (s : σ)
    (hmem : iso ∈ targets) (hf : env.fetch iso = .ok s) :
    AgentEvent.fetched iso ∈ (fetchPhase env targets).1 := by
  induction targets with
  | nil => cases hmem
  | cons t rest ih =>
    simp only [fetchPhase]
    rcases List.mem_cons.mp hmem with h | h
    · subst h
      simp [hf]
    · cases hft : env.fetch t <;> simp [hft, ih h]

theorem fetchPhase_fetchFailed_mem {σ : Type} (env : AgentEnv σ)
    (targets : List (List Char)) (iso e : List Char)
    (hmem : iso ∈ targets) (hf : env.fetch iso = .error e) :
    AgentEvent.fetchFailed iso e ∈ (fetchPhase env targets).1 := by
  induction targets with
  | nil => cases hmem
  | cons t rest ih =>
    simp only [fetchPhase]
    rcases List.mem_cons.mp hmem with h | h
    · subst h
      simp [hf]
    · cases hft : env.fetch t <;> simp [hft, ih h]

theorem fetchPhase_events_shape {σ : Type} (env : AgentEnv σ)
    (targets : List (List Char)) :
    ∀ ev ∈ (fetchPhase env targets).1,
      (∃ i, ev = AgentEvent.fetched i) ∨ (∃ i e, ev = AgentEvent.fetchFailed i e) := by
  induction targets with
  | nil => intro ev hev; cases hev
  | cons t rest ih =>
    intro ev hev
    simp only [fetchPhase] at hev
    cases hft : env.fetch t <;> rw [hft] at hev <;> simp at hev <;>
      rcases hev with h | h
    · exact .inr ⟨t, _, h⟩
    · exact ih ev h
    · exact .inl ⟨t, h⟩
    · exact ih ev h

theorem processPhase_events_shape {σ : Type} (env : AgentEnv σ)
    (snaps : List (SnapshotRecord σ)) :
    ∀ ev ∈ (processPhase env snaps).1,
      (∃ i s, ev = AgentEvent.analysed i s) ∨ (∃ i e, ev = AgentEvent.analysisFailed i e)
      ∨ (∃ i, ev = AgentEvent.telegramSent i)
      ∨ (∃ i e, ev = AgentEvent.telegramFailed i e) := by
  induction snaps with
  | nil => intro ev hev; cases hev
  | cons r rest ih =>
    intro ev hev
    cases ha : env.analyse r.snapshot with
    | error e =>
      simp only [processPhase, ha] at hev
      rcases List.mem_cons.mp hev with h | h
      · exact .inr (.inl ⟨r.targetIso, e, h⟩)
      · exact ih ev h
    | ok analysis =>
      cases hd : env.deliver (env.format analysis) with
      | ok u =>
        simp only [processPhase, ha, hd] at hev
        rcases List.mem_cons.mp hev with h | h
        · exact .inl ⟨r.targetIso, analysis.summary, h⟩
        · rcases List.mem_cons.mp h with h2 | h2
          · exact .inr (.inr (.inl ⟨r.targetIso, h2⟩))
          · exact ih ev h2
      | error e =>
        simp only [processPhase, ha, hd] at hev
        rcases List.mem_cons.mp hev with h | h
        · exact .inl ⟨r.targetIso, analysis.summary, h⟩
        · rcases List.mem_cons.mp h with h2 | h2
          · exact .inr (.inr (.inr ⟨r.targetIso, e, h2⟩))
          · exact ih ev h2

theorem runFailure_shape (x : RunFailure) :
    (∃ i e, x = RunFailure.ollama i e) ∨ (∃ i e, x = RunFailure.telegram i e) := by
  cases x with
  | ollama i e => exact .inl ⟨i, e, rfl⟩
  | telegram i e => exact .inr ⟨i, e, rfl⟩

theorem run_contains_fetch_events {σ : Type} (env : AgentEnv σ)
    (targets : List (List Char)) (hsess : env.sessionStart = .ok ())
    (hne : targets ≠ []) :
    ∀ ev ∈ (fetchPhase env targets).1, ev ∈ run_async_impl env targets := by
  intro ev hev
  unfold run_async_impl
  have hne' : targets.isEmpty = false := by
    cases targets with
    | nil => exact absurd rfl hne
    | cons a l => rfl
  rw [hne']
  simp only [Bool.false_eq_true, if_false, hsess]
  by_cases hsnap : (fetchPhase env targets).2.isEmpty = true <;> simp [hsnap, hev]

theorem run_finalSummary_inversion {σ : Type} (env : AgentEnv σ)
    (targets : List (List Char)) (s f : Nat) (d : List (List Char))
    (fl : List RunFailure)
    (hmem : AgentEvent.finalSummary s f d fl ∈ run_async_impl env targets) :
    f = fl.length
    ∧ fl = (processPhase env (fetchPhase env targets).2).2.2 := by
  unfold run_async_impl at hmem
  by_cases hne : targets.isEmpty = true
  · rw [if_pos hne] at hmem
    simp at hmem
  rw [if_neg hne] at hmem
  cases hsess : env.sessionStart with
  | error e =>
    rw [hsess] at hmem
    simp at hmem
  | ok u =>
    cases u
    rw [hsess] at hmem
    simp only at hmem
    by_cases hsnap : (fetchPhase env targets).2.isEmpty = true
    · rw [if_pos hsnap] at hmem
      rcases List.mem_append.mp hmem with h | h
      · rcases fetchPhase_events_shape env targets _ h with ⟨i, hh⟩ | ⟨i, e, hh⟩ <;>
          cases hh
      · simp at h
    · rw [if_neg hsnap] at hmem
      simp only [List.append_assoc, List.mem_append, List.mem_singleton,
        AgentEvent.finalSummary.injEq] at hmem
      rcases hmem with h | h | ⟨hs2, hf2, hd2, hfl2⟩
      · rcases fetchPhase_events_shape env targets _ h with ⟨i, hh⟩ | ⟨i, e, hh⟩ <;>
          cases hh
      · rcases processPhase_events_shape env _ _ h with
          ⟨i, ss, hh⟩ | ⟨i, e, hh⟩ | ⟨i, hh⟩ | ⟨i, e, hh⟩ <;> cases hh
      · subst hf2
        subst hfl2
        exact ⟨rfl, rfl⟩

/-- The two-target environment of the C1 counterexample ("a" succeeds end to
end, "b"'s fetch raises "boom"). -/
def cexAnalysis : TeeSheetAnalysis :=
  ⟨[], [], ("ok".toList), [], [], [], [], []⟩

def cexEnv : AgentEnv Nat := {
  sessionStart := .ok ()
  fetch := fun iso => if iso = ("b".toList) then .error ("boom".toList) else .ok 0
  analyse := fun _ => .ok cexAnalysis
  format := fun _ => []
  deliver := fun _ => .ok () }

/-- C1 counterexample: target "b"'s fetch raises; the run continues and the
final report is `finalSummary` with succeeded = 1, failed = 0 and an empty
failure list — the fetch failure is absent from the final report's failure
count and descriptions (it appears only as a mid-run event), contradicting
the claim that the report's failure count and descriptions include it. -/
theorem claim_C1_counterexample :
    run_async_impl cexEnv [("a".toList), ("b".toList)]
      = [.fetched ("a".toList), .fetchFailed ("b".toList) ("boom".toList),
         .analysed ("a".toList) ("ok".toList), .telegramSent ("a".toList),
         .finalSummary 1 0 [("a".toList)] []] := by
  decide

/-- C1 (amended): when a target's fetch raises, the orchestrator emits a
fetch-failure event for that target and continues through the remaining
targets in the same session (every target is still attempted, successes and
failures alike); but no failed Outcome is recorded for it: the final
summary's failure count equals the length of its failure-description list,
which holds only analysis ("Ollama") and delivery ("Telegram") failures, so
a fetch failure is reported only in the event stream, never in the final
run report. -/
theorem claim_C1_fetch_isolation {σ : Type} (env : AgentEnv σ)
    (targets : List (List Char)) (iso e : List Char)
    (hsess : env.sessionStart = .ok ())
    (hmem : iso ∈ targets) (hf : env.fetch iso = .error e) :
    AgentEvent.fetchFailed iso e ∈ run_async_impl env targets
    ∧ (∀ iso' s, iso' ∈ targets → env.fetch iso' = .ok s →
        AgentEvent.fetched iso' ∈ run_async_impl env targets)
    ∧ (∀ iso' e', iso' ∈ targets → env.fetch iso' = .error e' →
        AgentEvent.fetchFailed iso' e' ∈ run_async_impl env targets)
    ∧ (∀ s f d fl, AgentEvent.finalSummary s f d fl ∈ run_async_impl env targets →
        f = fl.length
        ∧ ∀ x ∈ fl, (∃ i ex, x = RunFailure.ollama i ex)
            ∨ (∃ i ex, x = RunFailure.telegram i ex)) := by
  have hne : targets ≠ [] := List.ne_nil_of_mem hmem
  refine ⟨?_, ?_, ?_, ?_⟩
  · exact run_contains_fetch_events env targets hsess hne _
      (fetchPhase_fetchFailed_mem env targets iso e hmem hf)
  · intro iso' s hm' hf'
    exact run_contains_fetch_events env targets hsess hne _
      (fetchPhase_fetched_mem env targets iso' s hm' hf')
  · intro iso' e' hm' hf'
    exact run_contains_fetch_events env targets hsess hne _
      (fetchPhase_fetchFailed_mem env targets iso' e' hm' hf')
  · intro s f d fl hfs
    obtain ⟨h1, _⟩ := run_finalSummary_inversion env targets s f d fl hfs
    exact ⟨h1, fun x _ => runFailure_shape x⟩

/-- C1 witness: the amended theorem applied to the concrete two-target
environment. -/
theorem claim_C1_fetch_isolation_witness :
    AgentEvent.fetchFailed ("b".toList) ("boom".toList)
      ∈ run_async_impl cexEnv [("a".toList), ("b".toList)] :=
  (claim_C1_fetch_isolation cexEnv [("a".toList), ("b".toList)]
    ("b".toList) ("boom".toList) rfl (by decide) rfl).1

/-! Fence-extraction lemmas for C3. -/

theorem pyIsSpace_btick : pyIsSpace btick = false := rfl

theorem fenceAt_eq_false {c : Char} (cs : List Char) (hc : c ≠ btick) :
    fenceAt (c :: cs) = false := by
  cases cs with
  | nil => rfl
  | cons b bs =>
    cases bs with
    | nil => rfl
    | cons d ds =>
      simp [fenceAt, hc]

theorem splitFenceAux_no_btick {l : List Char} (hb : btick ∉ l) (acc : List Char) :
    splitFenceAux l acc = [acc.reverse ++ l] := by
  induction l generalizing acc with
  | nil => simp [splitFenceAux]
  | cons c cs ih =>
    have hc : c ≠ btick := fun h => hb (h ▸ List.mem_cons_self c cs)
    rw [splitFenceAux, fenceAt_eq_false cs hc]
    simp only [Bool.false_eq_true, if_false]
    rw [ih (fun h => hb (List.mem_cons_of_mem _ h)) (c :: acc)]
    simp

theorem splitFenceAux_fence_start (rest acc : List Char) :
    splitFenceAux (btick :: btick :: btick :: rest) acc
      = acc.reverse :: splitFenceAux rest [] := by
  rw [splitFenceAux]
  simp [fenceAt]

theorem splitFenceAux_mid {mid : List Char} (hb : btick ∉ mid) (rest acc : List Char) :
    splitFenceAux (mid ++ btick :: btick :: btick :: rest) acc
      = (acc.reverse ++ mid) :: splitFenceAux rest [] := by
  induction mid generalizing acc with
  | nil => simpa using splitFenceAux_fence_start rest acc
  | cons c cs ih =>
    have hc : c ≠ btick := fun h => hb (h ▸ List.mem_cons_self c cs)
    rw [List.cons_append, splitFenceAux,
      fenceAt_eq_false (cs ++ btick :: btick :: btick :: rest) hc]
    simp only [Bool.false_eq_true, if_false]
    rw [ih (fun h => hb (List.mem_cons_of_mem _ h)) (c :: acc)]
    simp

theorem splitFence_wrapped {mid : List Char} (hb : btick ∉ mid) :
    splitFence (fenceDelim ++ mid ++ fenceDelim) = [[], mid, []] := by
  unfold splitFence
  rw [show fenceDelim ++ mid ++ fenceDelim
      = btick :: btick :: btick :: (mid ++ btick :: btick :: btick :: []) by
    simp [fenceDelim]]
  rw [splitFenceAux_fence_start, splitFenceAux_mid hb [] []]
  simp [splitFenceAux]

theorem containsFence_wrapped (mid : List Char) :
    containsFence (fenceDelim ++ mid ++ fenceDelim) = true := by
  rw [show fenceDelim ++ mid ++ fenceDelim
      = btick :: btick :: btick :: (mid ++ btick :: btick :: btick :: []) by
    simp [fenceDelim]]
  rw [containsFence]
  simp [fenceAt]

theorem pyStrip_sandwich (a b : Char) (l : List Char)
    (ha : pyIsSpace a = false) (hb : pyIsSpace b = false) :
    pyStrip (a :: (l ++ [b])) = a :: (l ++ [b]) := by
  unfold pyStrip
  rw [List.dropWhile_cons]
  simp only [ha, Bool.false_eq_true, if_false]
  rw [← List.cons_append]
  exact List.rdropWhile_concat_neg pyIsSpace (a :: l) b (by simp [hb])

theorem pyStrip_wrapped (mid : List Char) :
    pyStrip (fenceDelim ++ mid ++ fenceDelim) = fenceDelim ++ mid ++ fenceDelim := by
  rw [show fenceDelim ++ mid ++ fenceDelim
      = btick :: ((btick :: btick :: mid ++ [btick, btick]) ++ [btick]) by
    simp [fenceDelim]]
  exact pyStrip_sandwich btick btick _ pyIsSpace_btick pyIsSpace_btick

theorem extract_candidate_wrapped {mid : List Char} (hb : btick ∉ mid) :
    extract_candidate (fenceDelim ++ mid ++ fenceDelim)
      = jsonTagStrip (pyStrip mid) := by
  unfold extract_candidate
  simp only [pyStrip_wrapped, containsFence_wrapped, if_true, splitFence_wrapped hb]
  rfl

/-- C3: response parsing never raises and is defensive: a response wrapped
in fenced-code delimiters has its middle segment extracted as the parse
candidate; a leading (case-insensitive) `json` language tag is stripped;
whenever the candidate does not decode, the parse yields the empty
structured result, and the pipeline still returns a degraded Analysis — no
slots, no warnings, non-empty fallback summary — instead of aborting the
target. -/
theorem claim_C3_defensive_parse :
    (∀ mid, btick ∉ mid →
      parse_response (fenceDelim ++ mid ++ fenceDelim)
        = loadsOrEmpty (jsonTagStrip (pyStrip mid)))
    ∧ (∀ c1 c2 c3 c4 rest, [c1, c2, c3, c4].map Char.toLower = ("json".toList) →
        jsonTagStrip (c1 :: c2 :: c3 :: c4 :: rest) = pyStrip rest)
    ∧ (∀ raw, jsonLoads (extract_candidate raw) = none → parse_response raw = .obj [])
    ∧ (∀ settings raw snapshot, parse_response raw = .obj [] →
        ∃ a, analyse_from_text settings raw snapshot = .ok a
          ∧ a.teeTimes = [] ∧ a.warnings = []
          ∧ a.summary = pyStrip (fallback_summary [] [] snapshot)
          ∧ a.summary ≠ []) := by
  refine ⟨?_, ?_, ?_, ?_⟩
  · intro mid hb
    unfold parse_response
    rw [pyStrip_wrapped, extract_candidate_wrapped hb]
    rw [show (fenceDelim ++ mid ++ fenceDelim).isEmpty = false from by
      simp [fenceDelim]]
    simp
  · intro c1 c2 c3 c4 rest h
    unfold jsonTagStrip
    rw [show (c1 :: c2 :: c3 :: c4 :: rest).take 4 = [c1, c2, c3, c4] from rfl, h]
    simp
  · intro raw h
    unfold parse_response loadsOrEmpty
    rw [h]
    split <;> rfl
  · intro settings raw snapshot h
    have hrun : analyse_from_text settings raw snapshot
        = analyse_parsed settings (JVal.obj []) raw snapshot := by
      unfold analyse_from_text
      rw [h]
    refine ⟨_, hrun.trans rfl, rfl, rfl, rfl, ?_⟩
    show pyStrip (fallback_summary [] [] snapshot) ≠ []
    have hmem : 'N' ∈ fallback_summary [] [] snapshot := by
      unfold fallback_summary
      simp only [List.isEmpty_nil, if_true]
      exact List.mem_append.mpr (.inl (List.mem_append.mpr (.inl
        (List.mem_append.mpr (.inl (List.mem_append.mpr (.inl (by decide))))))))
    exact pyStrip_ne_nil hmem (by decide)

/-- C3 witness: a fenced, json-tagged, undecodable response parses to the
empty dict; a plain-garbage response still produces a degraded Analysis
with a non-empty fallback summary. -/
theorem claim_C3_defensive_parse_witness :
    parse_response (fenceDelim ++ ("json notjson".toList) ++ fenceDelim) = .obj []
    ∧ ∃ a, analyse_from_text sampleSettings ("complete garbage".toList) sampleSnapshot
        = .ok a
        ∧ a.teeTimes = [] ∧ a.warnings = []
        ∧ a.summary = pyStrip (fallback_summary [] [] sampleSnapshot)
        ∧ a.summary ≠ [] := by
  constructor
  · rw [claim_C3_defensive_parse.1 ("json notjson".toList) (by decide)]
    rfl
  · exact claim_C3_defensive_parse.2.2.2 sampleSettings ("complete garbage".toList)
      sampleSnapshot rfl

/-! Slot-construction lemmas for C9. -/

/-- The pure per-entry slot construction on dict items, for comparison with
the monadic comprehension. -/
def slot_of_entry : JVal → Option TeeTimeSlot
  | .obj kvs =>
    if pyTruthyOpt (objLookup kvs ("time".toList)) then
      some {
        time := pyStrip (pyStr ((objLookup kvs ("time".toList)).getD (.str [])))
        status := pyStrip (pyStr ((objLookup kvs ("status".toList)).getD (.str [])))
        availableSlots := coerceInt (objLookup kvs ("available_slots".toList))
        isBookable := pyTruthy ((objLookup kvs ("is_bookable".toList)).getD (.bool false))
        notes := if pyTruthyOpt (objLookup kvs ("notes".toList))
                 then objLookup kvs ("notes".toList) else none }
    else none
  | _ => none

theorem build_slot_obj (kvs : List (List Char × JVal)) :
    build_slot (.obj kvs) = .ok (slot_of_entry (.obj kvs)) := by
  simp only [build_slot, slot_of_entry, pyGet, pyGetD,
    Bind.bind, Except.bind, Pure.pure, Except.pure]
  split <;> rfl

theorem build_slot_list_obj (items : List JVal)
    (hobj : ∀ i ∈ items, ∃ kvs, i = JVal.obj kvs) :
    build_slot_list items = .ok (items.map slot_of_entry) := by
  induction items with
  | nil => rfl
  | cons i rest ih =>
    obtain ⟨kvs, rfl⟩ := hobj i (List.mem_cons_self i rest)
    simp [build_slot_list, build_slot_obj,
      ih (fun j hj => hobj j (List.mem_cons_of_mem _ hj)),
      Bind.bind, Except.bind, Pure.pure, Except.pure]

theorem build_slots_eq_filterMap (items : List JVal)
    (hobj : ∀ i ∈ items, ∃ kvs, i = JVal.obj kvs) :
    build_slots items = .ok (items.filterMap slot_of_entry) := by
  unfold build_slots
  rw [build_slot_list_obj items hobj]
  simp [Bind.bind, Except.bind, Pure.pure, Except.pure, List.reduceOption,
    List.filterMap_map]

/-- C9: over parsed `tee_times` entries that are dicts, slot construction is
exactly the order-preserving filterMap dropping every entry whose time field
is missing or falsy; a kept entry's capacity is the best-effort integer
coercion of `available_slots` — unset when the field is absent, empty or
uncoercible — and its eligibility flag defaults to false when `is_bookable`
is absent. -/
theorem claim_C9_slot_construction :
    (∀ items, (∀ i ∈ items, ∃ kvs, i = JVal.obj kvs) →
      build_slots items = .ok (items.filterMap slot_of_entry))
    ∧ (∀ kvs, pyTruthyOpt (objLookup kvs ("time".toList)) = false →
        slot_of_entry (.obj kvs) = none)
    ∧ (∀ kvs slot, slot_of_entry (.obj kvs) = some slot →
        slot.availableSlots = coerceInt (objLookup kvs ("available_slots".toList))
        ∧ (objLookup kvs ("is_bookable".toList) = none → slot.isBookable = false))
    ∧ coerceInt none = none
    ∧ coerceInt (some (.str [])) = none
    ∧ (∀ s, pyToInt s = none → coerceInt (some (.str s)) = none)
    ∧ (∀ n, coerceInt (some (.num n)) = some n) := by
  refine ⟨build_slots_eq_filterMap, ?_, ?_, rfl, rfl, ?_, fun n => rfl⟩
  · intro kvs h
    simp only [slot_of_entry]
    rw [h]
    simp
  · intro kvs slot h
    simp only [slot_of_entry] at h
    by_cases hc : pyTruthyOpt (objLookup kvs ("time".toList)) = true
    · rw [if_pos hc] at h
      obtain rfl : _ = slot := Option.some.inj h
      refine ⟨rfl, fun hb => ?_⟩
      show pyTruthy ((objLookup kvs ("is_bookable".toList)).getD (.bool false)) = false
      rw [hb]
      rfl
    · rw [if_neg hc] at h
      cases h
  · intro s h
    by_cases he : s.isEmpty = true <;> simp [coerceInt, he, h]

/-- C9 witness: an entry with a truthy time and string capacity "4" is kept
with capacity 4 and default non-bookable flag; an entry with no time field
is dropped. -/
theorem claim_C9_slot_construction_witness :
    build_slots [JVal.obj [(("time".toList), .str ("10:00".toList)),
                           (("available_slots".toList), .str ("4".toList))],
                 JVal.obj [(("status".toList), .str ("full".toList))]]
      = .ok [{ time := ("10:00".toList), status := [], availableSlots := some 4,
               isBookable := false, notes := none }] := by
  rw [claim_C9_slot_construction.1 _ (by
    intro i hi
    rcases List.mem_cons.mp hi with h | h
    · exact ⟨_, h⟩
    · rcases List.mem_cons.mp h with h2 | h2
      · exact ⟨_, h2⟩
      · cases h2)]
  rfl

/-! Warning-construction lemmas for C10. -/

theorem build_warnings_eq_filter (msgs : List JVal) :
    build_warnings msgs
      = (msgs.map (fun m => pyStrip (pyStr m))).filter (fun s => !s.isEmpty) := by
  induction msgs with
  | nil => rfl
  | cons m rest ih =>
    simp only [build_warnings, List.filterMap_cons, List.map_cons, List.filter_cons]
      at ih ⊢
    cases h : (pyStrip (pyStr m)).isEmpty <;>
      simp [build_warning, h, ih, build_warnings]

/-- C10: the warnings of an Analysis are exactly the parsed warning entries
that are non-empty after whitespace stripping, each stripped of surrounding
whitespace, in original order; hence no warning is blank, and whenever the
fallback summary cites the first warning, that cited text is a non-blank
suffix of the summary. -/
theorem claim_C10_warnings (msgs : List JVal) :
    build_warnings msgs
      = (msgs.map (fun m => pyStrip (pyStr m))).filter (fun s => !s.isEmpty)
    ∧ (∀ w ∈ build_warnings msgs, w ≠ [] ∧ pyStrip w = w)
    ∧ (∀ snapshot w rest, build_warnings msgs = w :: rest →
        (∃ pre, fallback_summary [] (build_warnings msgs) snapshot = pre ++ w)
        ∧ w ≠ []) := by
  have hmem : ∀ w ∈ build_warnings msgs, w ≠ [] ∧ pyStrip w = w := by
    intro w hw
    obtain ⟨m, _, hfm⟩ := List.mem_filterMap.mp hw
    unfold build_warning at hfm
    by_cases he : (pyStrip (pyStr m)).isEmpty = true
    · rw [if_pos he] at hfm
      cases hfm
    · rw [if_neg he] at hfm
      obtain rfl := Option.some.inj hfm
      exact ⟨fun hc => he (by rw [hc]; rfl), pyStrip_idempotent (pyStr m)⟩
  refine ⟨build_warnings_eq_filter msgs, hmem, ?_⟩
  intro snapshot w rest hw
  have hwne := (hmem w (hw ▸ List.mem_cons_self w rest)).1
  rw [hw]
  exact ⟨⟨_, rfl⟩, hwne⟩

/-- C10 witness: of the parsed warning entries "  login issue " and a blank
one, only the stripped "login issue" survives; it is non-blank and
fully stripped, and the fallback summary cites it as a suffix. -/
theorem claim_C10_warnings_witness :
    build_warnings [JVal.str ("  login issue ".toList), JVal.str ("   ".toList)]
      = [("login issue".toList)]
    ∧ ("login issue".toList) ≠ []
    ∧ pyStrip ("login issue".toList) = ("login issue".toList)
    ∧ ∃ pre, fallback_summary []
        (build_warnings [JVal.str ("  login issue ".toList), JVal.str ("   ".toList)])
        sampleSnapshot = pre ++ ("login issue".toList) := by
  have h := claim_C10_warnings [JVal.str ("  login issue ".toList), JVal.str ("   ".toList)]
  have hbw : build_warnings [JVal.str ("  login issue ".toList), JVal.str ("   ".toList)]
      = [("login issue".toList)] := by
    rw [h.1]
    rfl
  have h2 := h.2.1 ("login issue".toList) (hbw ▸ List.mem_cons_self _ _)
  have h3 := h.2.2 sampleSnapshot ("login issue".toList) [] hbw
  exact ⟨hbw, h2.1, h2.2, h3.1⟩

/-! Summary-fallback lemmas for C4. -/

/-- The stripped fallback summary is never empty: each of its four template
cases contains a non-whitespace literal character. -/
theorem fallback_summary_ne_nil (tts : List TeeTimeSlot) (ws : List (List Char))
    (snapshot : TeeSheetSnapshot) : pyStrip (fallback_summary tts ws snapshot) ≠ [] := by
  unfold fallback_summary
  by_cases ht : tts.isEmpty = true
  · rw [if_pos ht]
    cases ws with
    | cons w rest =>
      refine pyStrip_ne_nil (c := 'N') ?_ (by decide)
      simp only [List.append_assoc, List.mem_append]
      exact .inl (by decide)
    | nil =>
      refine pyStrip_ne_nil (c := 'N') ?_ (by decide)
      simp only [List.append_assoc, List.mem_append]
      exact .inl (by decide)
  · rw [if_neg ht]
    by_cases hb : (tts.filter (fun slot => slot.isBookable)).isEmpty = true
    · simp only [hb, Bool.not_true, Bool.false_eq_true, if_false]
      refine pyStrip_ne_nil (c := 'T') ?_ (by decide)
      simp only [List.append_assoc, List.mem_append]
      exact .inl (by decide)
    · simp only [Bool.eq_false_iff.mpr hb, Bool.not_false, if_true]
      refine pyStrip_ne_nil (c := 'b') ?_ (by decide)
      simp only [List.append_assoc, List.mem_append]
      exact .inr (.inl (by decide))

/-- The guard `not isinstance(summary, str) or not summary.strip()` applied
to the result of `parsed.get("summary")`. -/
def summary_missing_or_blank (summaryOpt : Option JVal) : Bool :=
  match summaryOpt with
  | some (.str s) => (pyStrip s).isEmpty
  | _ => true

/-- Inversion of a successful `analyse_parsed` run: the produced Analysis
carries the built slots and warnings, and its summary is the stripped model
summary when that is a non-blank string, else the stripped fallback. -/
theorem analyse_parsed_ok {settings : Settings} {parsed : JVal}
    {raw_text : List Char} {snapshot : TeeSheetSnapshot} {a : TeeSheetAnalysis}
    (h : analyse_parsed settings parsed raw_text snapshot = .ok a) :
    ∃ tts wItems summaryOpt,
      a.teeTimes = tts
      ∧ a.warnings = build_warnings wItems
      ∧ pyGet parsed ("summary".toList) = .ok summaryOpt
      ∧ a.summary = pyStrip (match summaryOpt with
          | some (.str s) =>
              if (pyStrip s).isEmpty = true
              then fallback_summary tts (build_warnings wItems) snapshot
              else s
          | _ => fallback_summary tts (build_warnings wItems) snapshot) := by
  unfold analyse_parsed at h
  cases h1 : pyGetD parsed ("tee_times".toList) (.arr []) with
  | error e => rw [h1] at h; simp [Bind.bind, Except.bind] at h
  | ok teeRaw =>
  rw [h1] at h
  simp only [Bind.bind, Except.bind] at h
  cases h2 : pyIter teeRaw with
  | error e => rw [h2] at h; simp at h
  | ok items =>
  rw [h2] at h
  simp only [] at h
  cases h3 : build_slots items with
  | error e => rw [h3] at h; simp at h
  | ok tts =>
  rw [h3] at h
  simp only [] at h
  cases h4 : pyGetD parsed ("warnings".toList) (.arr []) with
  | error e => rw [h4] at h; simp at h
  | ok warnRaw =>
  rw [h4] at h
  simp only [] at h
  cases h5 : pyIter warnRaw with
  | error e => rw [h5] at h; simp at h
  | ok wItems =>
  rw [h5] at h
  simp only [] at h
  cases h6 : pyGet parsed ("summary".toList) with
  | error e => rw [h6] at h; simp at h
  | ok summaryOpt =>
  rw [h6] at h
  simp only [Pure.pure, Except.pure, Except.ok.injEq] at h
  refine ⟨tts, wItems, summaryOpt, ?_, ?_, rfl, ?_⟩ <;> rw [← h]

/-- C4: every Analysis produced by `analyse_snapshot` has a non-empty
summary; whenever the model summary is missing or blank, the summary is the
stripped deterministic fallback, whose cases are: no slots with a warning →
"no items parsed" citing the first warning; no slots, no warnings → "no
items parsed"; some bookable slots → their count; slots but none bookable →
analysed with none identified. -/
theorem claim_C4_summary_invariant :
    (∀ settings oracle snapshot a,
      analyse_snapshot settings oracle snapshot = .ok a → a.summary ≠ [])
    ∧ (∀ settings parsed raw snapshot a summaryOpt,
        analyse_parsed settings parsed raw snapshot = .ok a →
        pyGet parsed ("summary".toList) = .ok summaryOpt →
        summary_missing_or_blank summaryOpt = true →
        a.summary = pyStrip (fallback_summary a.teeTimes a.warnings snapshot))
    ∧ (∀ snapshot w rest,
        fallback_summary [] (w :: rest) snapshot
          = ("No tee times parsed for ".toList) ++ snapshot.dayName ++ [' ']
            ++ snapshot.dateIso ++ ("; warnings: ".toList) ++ w)
    ∧ (∀ snapshot,
        fallback_summary [] [] snapshot
          = ("No tee times parsed for ".toList) ++ snapshot.dayName ++ [' ']
            ++ snapshot.dateIso ++ (".".toList))
    ∧ (∀ snapshot tts ws, tts ≠ [] → tts.filter (fun s => s.isBookable) ≠ [] →
        fallback_summary tts ws snapshot
          = ((toString (tts.filter (fun s => s.isBookable)).length).toList)
            ++ (" bookable tee time(s) found for ".toList) ++ snapshot.dayName
            ++ [' '] ++ snapshot.dateIso ++ (".".toList))
    ∧ (∀ snapshot tts ws, tts ≠ [] → tts.filter (fun s => s.isBookable) = [] →
        fallback_summary tts ws snapshot
          = ("Tee sheet analysed for ".toList) ++ snapshot.dayName ++ [' ']
            ++ snapshot.dateIso ++ ("; no bookable slots identified.".toList)) := by
  refine ⟨?_, ?_, fun snapshot w rest => rfl, fun snapshot => rfl, ?_, ?_⟩
  · intro settings oracle snapshot a h
    unfold analyse_snapshot at h
    cases ho : (invoke_generate oracle).outcome with
    | error e =>
      rw [ho] at h
      cases e <;> simp [Bind.bind, Except.bind] at h
    | ok v =>
      rw [ho] at h
      simp only [Bind.bind, Except.bind] at h
      cases hg : pyGet v ("response".toList) with
      | error e => rw [hg] at h; simp at h
      | ok respOpt =>
        rw [hg] at h
        unfold analyse_from_text at h
        obtain ⟨tts, wItems, summaryOpt, _, _, _, hsum⟩ := analyse_parsed_ok h
        rw [hsum]
        cases summaryOpt with
        | none => exact fallback_summary_ne_nil tts (build_warnings wItems) snapshot
        | some v2 =>
          cases v2 with
          | str s =>
            by_cases hblank : (pyStrip s).isEmpty = true
            · simp only [hblank, if_true]
              exact fallback_summary_ne_nil tts (build_warnings wItems) snapshot
            · simp only [hblank, Bool.false_eq_true, if_false]
              exact fun hc => hblank (by rw [hc]; rfl)
          | null => exact fallback_summary_ne_nil tts (build_warnings wItems) snapshot
          | bool b => exact fallback_summary_ne_nil tts (build_warnings wItems) snapshot
          | num n => exact fallback_summary_ne_nil tts (build_warnings wItems) snapshot
          | arr xs => exact fallback_summary_ne_nil tts (build_warnings wItems) snapshot
          | obj kvs => exact fallback_summary_ne_nil tts (build_warnings wItems) snapshot
  · intro settings parsed raw snapshot a summaryOpt h hget hblank
    obtain ⟨tts, wItems, sOpt, htt, hw, hget2, hsum⟩ := analyse_parsed_ok h
    obtain rfl : summaryOpt = sOpt := by
      rw [hget] at hget2
      exact Except.ok.inj hget2
    rw [htt, hw, hsum]
    cases summaryOpt with
    | none => rfl
    | some v2 =>
      cases v2 with
      | str s =>
        have : (pyStrip s).isEmpty = true := hblank
        simp only [this, if_true]
      | null => rfl
      | bool b => rfl
      | num n => rfl
      | arr xs => rfl
      | obj kvs => rfl
  · intro snapshot tts ws hne hb
    have h1 : tts.isEmpty = false := by simp [List.isEmpty_iff, hne]
    have h2 : (tts.filter (fun slot => slot.isBookable)).isEmpty = false :=
      List.isEmpty_eq_false.mpr hb
    simp only [fallback_summary, h1, Bool.false_eq_true, if_false, h2,
      Bool.not_false, if_true]
  · intro snapshot tts ws hne hb
    have h1 : tts.isEmpty = false := by simp [List.isEmpty_iff, hne]
    simp only [fallback_summary, h1, Bool.false_eq_true, if_false, hb,
      List.isEmpty_nil, Bool.not_true]

/-- An oracle whose generate call succeeds with an undecodable body. -/
def garbageOracle : Nat → Except PyErr JVal :=
  fun _ => .ok (.obj [(("response".toList), .str ("garbage".toList))])

/-- C4 witness: a run over an undecodable model response produces an
Analysis whose summary is non-empty, and the warning-citing fallback template
is exercised at a concrete snapshot. -/
theorem claim_C4_summary_invariant_witness :
    (∃ a, analyse_snapshot sampleSettings garbageOracle sampleSnapshot = .ok a
      ∧ a.summary ≠ [])
    ∧ fallback_summary [] [("w".toList)] sampleSnapshot
      = ("No tee times parsed for ".toList) ++ sampleSnapshot.dayName ++ [' ']
        ++ sampleSnapshot.dateIso ++ ("; warnings: ".toList) ++ ("w".toList) :=
  ⟨⟨_, rfl, claim_C4_summary_invariant.1 sampleSettings garbageOracle sampleSnapshot _ rfl⟩,
   claim_C4_summary_invariant.2.2.1 sampleSnapshot ("w".toList) []⟩

end TeeTime
